import Mathlib

/-
Verification of the GadgetSetAnalyzer driver (src/GSA.py) against its
natural-language specification.  The driver script is embedded shallowly:
pure fragments become Lean functions, the Python control flow that can
raise becomes Except-valued functions, and the classes that the driver
merely calls (GadgetSet, GadgetStats, the utility helpers) are either
abstract parameters of the embedded control flow or, where a claim is
decided by their specified behaviour, definitions modelled from the spec
and marked as such in their doc comments.
-/

/-! ### Variants option parsing (GSA.py lines 29 to 53) -/

/-- Outcome of the variants handling block of the driver.  The `parsed`
constructor carries the association list that models the Python dict
`variants_dict` in insertion order; `usageExit` models `exit(1)` after the
diagnostic print; `typeErrorCrash` models the uncaught Python `TypeError`
raised by `for variant in args.variants` when `args.variants` is `None`. -/
inductive VariantsOutcome where
  | parsed (dict : List (String × String))
  | usageExit (code : Nat)
  | typeErrorCrash
deriving DecidableEq

/-- Splitting a list of characters at every occurrence of the separator
character, with the semantics of the Python `str.split(sep)` for a one
character separator: the empty input yields one empty field, and a
separator at either end yields an empty field there. -/
def splitOnChar (c : Char) : List Char → List (List Char)
  | [] => [[]]
  | a :: rest =>
    let r := splitOnChar c rest
    if a = c then [] :: r
    else
      match r with
      | [] => [[a]]
      | x :: xs => (a :: x) :: xs

/-- GSA.py lines 49 and 50: `parts = variant.split("=")` followed by the
well-formedness test `len(parts) != 2 or not parts[0] or not parts[1]`.
Returns the name and path when the entry is well formed, `none` when the
driver would print the diagnostic and exit. -/
def splitVariant (v : String) : Option (String × String) :=
  match splitOnChar '=' v.data with
  | [a, b] => if a.isEmpty || b.isEmpty then none else some (String.mk a, String.mk b)
  | _ => none

/-- Python dict insertion as performed by `variants_dict[parts[0]] = parts[1]`
at GSA.py line 53: an existing key keeps its position and gets the new value,
a new key is appended at the end. -/
def dictInsert (d : List (String × String)) (k v : String) : List (String × String) :=
  if d.any (fun kv => kv.1 = k) then
    d.map (fun kv => if kv.1 = k then (k, v) else kv)
  else d ++ [(k, v)]

/-- The loop at GSA.py lines 48 to 53, with the accumulated dict made
explicit: each entry is split; a malformed entry makes the program print a
diagnostic and `exit(1)` at once, so later entries are never examined and
no analysis runs. -/
def parseVariantEntries : List (String × String) → List String → VariantsOutcome
  | d, [] => .parsed d
  | d, v :: rest =>
    match splitVariant v with
    | none => .usageExit 1
    | some (k, p) => parseVariantEntries (dictInsert d k p) rest

/-- GSA.py lines 47 to 53 as a whole.  The `--variants` argument is declared
with no default and no `required` flag, so omitting it leaves
`args.variants = None`; the loop header `for variant in args.variants` then
raises an uncaught `TypeError` before any entry is handled. -/
def processVariants : Option (List String) → VariantsOutcome
  | none => .typeErrorCrash
  | some vs => parseVariantEntries [] vs

/-! ### Effective flags and GadgetSet construction calls -/

/-- GSA.py line 45: `args.output_locality = args.output_locality or
args.output_simple`. -/
def effectiveOutputLocality (output_locality output_simple : Bool) : Bool :=
  output_locality || output_simple

/-- The command line arguments the driver reads when constructing
GadgetSet objects. -/
structure Args where
  original : String
  original_name : String
  output_addresses : Bool
  output_console : Bool
deriving DecidableEq

/-- One call to the GadgetSet constructor, recording the four positional
arguments the driver passes. -/
structure GadgetSetCall where
  name : String
  path : String
  resolveAddresses : Bool
  outputConsole : Bool
deriving DecidableEq

/-- GSA.py line 59: `original = GadgetSet(args.original_name, args.original,
False, args.output_console)`. -/
def originalGadgetSetCall (a : Args) : GadgetSetCall :=
  ⟨a.original_name, a.original, false, a.output_console⟩

/-- GSA.py lines 67 and 194: `variant = GadgetSet(key, filepath,
args.output_addresses, args.output_console)`. -/
def variantGadgetSetCall (a : Args) (key filepath : String) : GadgetSetCall :=
  ⟨key, filepath, a.output_addresses, a.output_console⟩

/-- The sequence of GadgetSet constructor calls the driver performs on a
run: first the original binary, then each variant in dict order. -/
def gadgetSetCallTrace (a : Args) (variants : List (String × String)) : List GadgetSetCall :=
  originalGadgetSetCall a :: variants.map (fun kp => variantGadgetSetCall a kp.1 kp.2)

/-! ### The variant analysis loop (GSA.py lines 63 to 68 and 189 to 195) -/

/-- The per-variant analysis loop of the driver.  Constructing a GadgetSet
or a GadgetStats may fail (scanner failure, unreadable binary, pipeline
failure); the classes themselves are outside the driver file, so they are
abstract fallible parameters here.  The loop body contains no exception
handler, so a raised error propagates out of the loop (modelled by the
Except bind): later variants are not reached. -/
def variantLoop {α β : Type} (gadgetSet : String → String → Except String α)
    (gadgetStats : α → α → Except String β) (original : α) :
    List (String × String) → Except String (List β)
  | [] => .ok []
  | (key, filepath) :: rest =>
    match gadgetSet key filepath with
    | .error e => .error e
    | .ok v =>
      match gadgetStats original v with
      | .error e => .error e
      | .ok s =>
        match variantLoop gadgetSet gadgetStats original rest with
        | .error e => .error e
        | .ok ss => .ok (s :: ss)

/-! ### Output file 8: likely gadget locations (GSA.py lines 294 to 311) -/

/-- GSA.py line 26. -/
def LINE_SEP : String := "\n"

/-- The two fields of a gadget that the file 8 writer reads. -/
structure GadgetM where
  instructions : String
  offset : String
deriving DecidableEq

/-- GSA.py lines 303 to 310: the lines appended for one gadget of one
special set, including the best-effort function resolution through
`variant.getFunction`. -/
def gadgetAddressLines (getFunction : String → Option String) (g : GadgetM) : List String :=
  ["Gadget: " ++ g.instructions ++ LINE_SEP,
   "Found at offset: " ++ g.offset ++ LINE_SEP,
   match getFunction g.offset with
   | none => "No associated function found." ++ LINE_SEP
   | some f => "Most likely location in source code: " ++ f ++ LINE_SEP]

/-- GSA.py lines 295 to 311: the file 8 block appended for one variant.
The code iterates over the ten special sets of the variant itself
(`variant.SyscallGadgets`, `variant.JOPDispatchers`, and so on) and emits
every gadget found there; the original GadgetSet is not consulted anywhere
in the block, so the function has no base parameter to read. -/
def file_8_lines (getFunction : String → Option String) (variantName : String)
    (specialSets : List (List GadgetM)) : List String :=
  ("Sensitive gadgets introduced in variant: " ++ variantName ++ LINE_SEP)
    :: (specialSets.flatMap (fun s => s.flatMap (gadgetAddressLines getFunction))
        ++ ["----------------------------------------------------------" ++ LINE_SEP])

/-! ### Metrics mode: results directory and file writing
(GSA.py lines 71 to 81 and 322 to 382) -/

/-- Outcome of the metrics branch as far as persistence is concerned:
which files were written, and the diagnostic printed if an OSError was
raised. -/
structure MetricsOutcome where
  persisted : List String
  diagnostic : Option String
deriving DecidableEq

/-- GSA.py lines 323 to 380: the report files are opened and written one
after the other inside a single try block; the first OSError aborts the
remaining writes and is caught at line 381, where it is printed.  Files
already written before the failure stay on disk. -/
def writeFiles (openFile : String → Except String Unit) : List String → List String × Option String
  | [] => ([], none)
  | f :: rest =>
    match openFile f with
    | .error e => ([], some e)
    | .ok _ =>
      match writeFiles openFile rest with
      | (ps, d) => (f :: ps, d)

/-- GSA.py lines 71 to 81 followed by 322 to 382: the metrics branch first
creates the results directory; an OSError there is caught, the diagnostic
is printed and `sys.exit` aborts the run before any file is written.
Otherwise the report files are written through `writeFiles`. -/
def metricsRun (mkdir : Except String String) (openFile : String → Except String Unit)
    (files : List String) : MetricsOutcome :=
  match mkdir with
  | .error e =>
    ⟨[], some ("An OS Error occurred during creation of results directory: " ++ e)⟩
  | .ok _ =>
    match writeFiles openFile files with
    | (ps, d) => ⟨ps, d⟩

/-! ### GadgetStats differential metrics, modelled from the spec

The GadgetStats class is not part of the driver file; its behaviour is
specified in section 4.5 of the spec.  Gadgets are represented by their
content identity (a natural number standing for the normalized instruction
sequence), and a metric family of a GadgetSet is a finite set of such
identities. -/

/-- Modelled from the spec: `Diff = candidate.count - base.count` (signed),
for any metric family of the missing GadgetStats class. -/
def countDiff (base cand : Finset ℕ) : ℤ :=
  (cand.card : ℤ) - base.card

/-- Modelled from the spec: `Reduction = |base.items \ candidate.items| /
|base.items|`, the fraction of base gadgets absent from the candidate by
content identity; undefined (`none`, reported as NA) when the base count
is 0.  The GadgetStats class holding this computation is missing from the
sources. -/
def reductionRate (base cand : Finset ℕ) : Option ℚ :=
  if base.card = 0 then none
  else some (((base \ cand).card : ℚ) / base.card)

/-- Modelled from the spec: `IntroductionRate = |candidate.items \
base.items| / |candidate.items|`; undefined (`none`, reported as NA) when
the candidate count is 0.  The GadgetStats class holding this computation
is missing from the sources. -/
def introductionRate (base cand : Finset ℕ) : Option ℚ :=
  if cand.card = 0 then none
  else some (((cand \ base).card : ℚ) / cand.card)

/-- Modelled from the spec: the set of changed gadgets, the content
identity symmetric difference between base and candidate. -/
def changedSet (base cand : Finset ℕ) : Finset ℕ :=
  (base \ cand) ∪ (cand \ base)

/-- Modelled from the spec: gadget locality.  `regions` is the set of
distinct resolved enclosing function names of the changed gadgets;
`locality = 1 - |regions| / |changed|` when at least one gadget changed and
resolution is available, NA (`none`) otherwise.  The GadgetStats class
holding this computation is missing from the sources. -/
def gadgetLocality (resolver : Option (ℕ → String)) (base cand : Finset ℕ) : Option ℚ :=
  match resolver with
  | none => none
  | some resolve =>
    let changed := changedSet base cand
    if changed.card = 0 then none
    else some (1 - ((changed.image resolve).card : ℚ) / changed.card)

/-- GSA.py line 83: `rate_format`, the percent format string with one
decimal digit.  It renders a numeric rate as a percentage: the rate times
1000, rounded to an integer, supplies the digits.  The driver applies it
only to reduction and introduction rates, which lie between 0 and 1. -/
def rate_format (q : ℚ) : String :=
  let m : ℤ := round (1000 * q)
  toString (m / 10) ++ "." ++ toString (m % 10).natAbs ++ "%"

/-- The application sites of `rate_format` (GSA.py lines 208 to 271 and
315): the driver formats every reduction and introduction rate of the
stats object with the numeric percent format string.  Python percent
formatting accepts only a numeric value, so when the rate carries the
undefined NA value of the stats layer the call raises an uncaught
TypeError instead of producing a report field; a defined rate is rendered
as a percentage string. -/
def rate_format_field (r : Option ℚ) : Except String String :=
  match r with
  | none => .error "TypeError: unsupported format string passed to NoneType"
  | some q => .ok (rate_format q)

/-- The metric families of one GadgetSet, by content identity: the three
category partitions and the ten special purpose role subsets, as listed in
the data model section of the spec. -/
structure GadgetSetM where
  ROPGadgets : Finset ℕ
  JOPGadgets : Finset ℕ
  COPGadgets : Finset ℕ
  SyscallGadgets : Finset ℕ
  JOPDispatchers : Finset ℕ
  JOPDataLoaders : Finset ℕ
  JOPInitializers : Finset ℕ
  JOPTrampolines : Finset ℕ
  COPDispatchers : Finset ℕ
  COPDataLoaders : Finset ℕ
  COPInitializers : Finset ℕ
  COPStrongTrampolines : Finset ℕ
  COPIntrastackPivots : Finset ℕ
deriving DecidableEq

/-- All gadgets of the set: the union of the three category partitions. -/
def GadgetSetM.allGadgets (S : GadgetSetM) : Finset ℕ :=
  S.ROPGadgets ∪ S.JOPGadgets ∪ S.COPGadgets

/-- The special purpose gadgets: every gadget carrying at least one role
tag. -/
def GadgetSetM.spGadgets (S : GadgetSetM) : Finset ℕ :=
  S.SyscallGadgets ∪ S.JOPDispatchers ∪ S.JOPDataLoaders ∪ S.JOPInitializers
    ∪ S.JOPTrampolines ∪ S.COPDispatchers ∪ S.COPDataLoaders ∪ S.COPInitializers
    ∪ S.COPStrongTrampolines ∪ S.COPIntrastackPivots

/-- Every metric family GadgetStats reports on: the total, the three
categories, the ten role subsets, and the special purpose aggregate. -/
def GadgetSetM.families (S : GadgetSetM) : List (Finset ℕ) :=
  [S.allGadgets, S.ROPGadgets, S.JOPGadgets, S.COPGadgets,
   S.SyscallGadgets, S.JOPDispatchers, S.JOPDataLoaders, S.JOPInitializers,
   S.JOPTrampolines, S.COPDispatchers, S.COPDataLoaders, S.COPInitializers,
   S.COPStrongTrampolines, S.COPIntrastackPivots, S.spGadgets]

/-! ## Theorems -/

/-- Helper: the variants parsing loop reports a usage exit with code 1
whenever some entry of the remaining list is malformed, whatever dict has
been accumulated so far. -/
theorem parseVariantEntries_usageExit (vs : List String) :
    ∀ d : List (String × String), (∃ v ∈ vs, splitVariant v = none) →
      parseVariantEntries d vs = .usageExit 1 := by
  induction vs with
  | nil => intro d h; simp at h
  | cons v rest ih =>
    intro d h
    rcases hv : splitVariant v with _ | kp
    · simp [parseVariantEntries, hv]
    · obtain ⟨w, hw, hsplit⟩ := h
      rcases List.mem_cons.mp hw with rfl | hwr
      · rw [hv] at hsplit; exact absurd hsplit (by simp)
      · obtain ⟨k, p⟩ := kp
        simp only [parseVariantEntries, hv]
        exact ih _ ⟨w, hwr, hsplit⟩

/-- C5: a command line whose variants list contains a malformed entry
(missing separator, empty name or empty path) makes the driver print a
diagnostic and exit with code 1 before any analysis; no variant dict and
no partial analysis output is produced. -/
theorem malformed_variants_exit_code_one (vs : List String)
    (h : ∃ v ∈ vs, splitVariant v = none) :
    processVariants (some vs) = .usageExit 1 :=
  parseVariantEntries_usageExit vs [] h

/-- Witness for the malformed variants claim at a concrete command line:
one well formed entry followed by an entry with no separator. -/
theorem malformed_variants_exit_code_one_witness :
    processVariants (some ["app=bin1", "oops"]) = .usageExit 1 :=
  malformed_variants_exit_code_one _ ⟨"oops", by simp, by decide⟩

/-- C7: passing the simple output switch makes the effective locality
setting true regardless of the locality switch itself (GSA.py line 45). -/
theorem output_simple_enables_locality (output_locality : Bool) :
    effectiveOutputLocality output_locality true = true := by
  simp [effectiveOutputLocality]

/-- C8 counterexample: a variants list with two entries sharing one name
is accepted by the construction loop rather than rejected; the second path
silently overwrites the first. -/
theorem duplicate_variant_names_accepted :
    processVariants (some ["app=path1", "app=path2"]) = .parsed [("app", "path2")] := by
  decide

/-- C8 amended: the variant mapping is an ordered mapping with unique keys
only because a later duplicate entry overwrites the earlier one in place;
duplicate names are accepted at construction, with the last path winning. -/
theorem duplicate_variant_name_last_wins (v1 v2 k p1 p2 : String)
    (h1 : splitVariant v1 = some (k, p1)) (h2 : splitVariant v2 = some (k, p2)) :
    processVariants (some [v1, v2]) = .parsed [(k, p2)] := by
  simp [processVariants, parseVariantEntries, h1, h2, dictInsert]

/-- Witness for the duplicate overwrite behaviour at a concrete command
line. -/
theorem duplicate_variant_name_last_wins_witness :
    processVariants (some ["v=a", "v=b"]) = .parsed [("v", "b")] :=
  duplicate_variant_name_last_wins "v=a" "v=b" "v" "a" "b" (by decide) (by decide)

/-- C9: when the variants option is omitted, argparse leaves None and the
driver loop raises an uncaught TypeError rather than exiting cleanly with
a usage diagnostic. -/
theorem omitted_variants_uncaught_type_error :
    processVariants none = .typeErrorCrash ∧ processVariants none ≠ .usageExit 1 := by
  exact ⟨rfl, by decide⟩

/-- C10: in the GadgetSet construction trace of any run, the original
binary is constructed with the address resolution flag hard coded to
false, while every variant receives the output addresses flag. -/
theorem original_resolve_flag_false (a : Args) (variants : List (String × String)) :
    (gadgetSetCallTrace a variants).head?.map GadgetSetCall.resolveAddresses = some false ∧
    ∀ c ∈ (gadgetSetCallTrace a variants).tail, c.resolveAddresses = a.output_addresses := by
  refine ⟨rfl, ?_⟩
  intro c hc
  simp [gadgetSetCallTrace] at hc
  obtain ⟨k, p, hkp, rfl⟩ := hc
  rfl

/-- Witness for the construction flag claim at a concrete argument record
with the output addresses flag on. -/
theorem original_resolve_flag_false_witness :
    (gadgetSetCallTrace ⟨"bin", "Original", true, false⟩ [("v1", "p1")]).head?.map
        GadgetSetCall.resolveAddresses = some false ∧
    (variantGadgetSetCall ⟨"bin", "Original", true, false⟩ "v1" "p1").resolveAddresses = true := by
  have h := original_resolve_flag_false ⟨"bin", "Original", true, false⟩ [("v1", "p1")]
  exact ⟨h.1, h.2 (variantGadgetSetCall ⟨"bin", "Original", true, false⟩ "v1" "p1")
    (by simp [gadgetSetCallTrace])⟩

/-- C2 counterexample: with two variants where scanning the first raises a
scan error, the whole loop result is that error; the second variant is
never analyzed and no per-variant results are reported at all. -/
theorem variant_failure_not_isolated :
    variantLoop (fun k _ => if k = "v1" then Except.error "ScanError" else Except.ok (0 : Nat))
        (fun _ s => Except.ok s) 0 [("v1", "p1"), ("v2", "p2")] =
      Except.error "ScanError" := by
  rfl

/-- C2 amended: the driver loop has no handler around the per-variant
GadgetSet and GadgetStats constructions, so the first failing variant
aborts the entire remaining run: the loop returns that failure and the
variants after it are never analyzed. -/
theorem variant_failure_aborts_run {α β : Type} (gadgetSet : String → String → Except String α)
    (gadgetStats : α → α → Except String β) (original : α)
    (pre : List (String × String)) (k p : String) (post : List (String × String)) (e : String)
    (hpre : ∀ kv ∈ pre, ∃ v s, gadgetSet kv.1 kv.2 = .ok v ∧ gadgetStats original v = .ok s)
    (hfail : gadgetSet k p = .error e) :
    variantLoop gadgetSet gadgetStats original (pre ++ (k, p) :: post) = .error e := by
  induction pre with
  | nil => simp [variantLoop, hfail]
  | cons kv rest ih =>
    obtain ⟨v, s, hv, hs⟩ := hpre kv (by simp)
    have hrest := ih (fun x hx => hpre x (by simp [hx]))
    obtain ⟨a, b⟩ := kv
    simp only [List.cons_append, variantLoop, hv, hs, List.append_eq, hrest]

/-- Witness for the abort behaviour: a successful first variant followed
by a failing one; the loop output is the failure. -/
theorem variant_failure_aborts_run_witness :
    variantLoop (fun k _ => if k = "bad" then Except.error "ScanError" else Except.ok (0 : Nat))
        (fun _ s => Except.ok s) 0 [("good", "p0"), ("bad", "p1"), ("tail", "p2")] =
      Except.error "ScanError" := by
  have h := variant_failure_aborts_run
    (fun k _ => if k = "bad" then Except.error "ScanError" else Except.ok (0 : Nat))
    (fun _ s => Except.ok s) 0 [("good", "p0")] "bad" "p1" [("tail", "p2")] "ScanError"
    (fun kv hkv => by
      simp at hkv
      subst hkv
      exact ⟨0, 0, rfl, rfl⟩)
    rfl
  simpa using h

/-- C3: the file 8 block lists a special purpose gadget of the variant
even when the same gadget (by content identity) also exists in the
original binary; the block enumerates every special purpose gadget the
variant contains, never subtracting the base set. -/
theorem file_8_lists_retained_gadget :
    ("Gadget: pop rdi ; ret" ++ LINE_SEP) ∈
      file_8_lines (fun _ => none) "V1"
        [[⟨"pop rdi ; ret", "0x4242"⟩], [], [], [], [], [], [], [], [], []] := by
  simp [file_8_lines, gadgetAddressLines]

/-- C6: when the results directory cannot be created, or the directory is
unwritable so that every file open raises an OSError, the metrics run
persists no analysis output and surfaces a diagnostic. -/
theorem result_directory_failure_fatal (mkdir : Except String String)
    (openFile : String → Except String Unit) (f0 : String) (rest : List String) (oe : String)
    (h : (∃ e, mkdir = Except.error e) ∨ (∀ g, openFile g = Except.error oe)) :
    (metricsRun mkdir openFile (f0 :: rest)).persisted = [] ∧
      (metricsRun mkdir openFile (f0 :: rest)).diagnostic.isSome := by
  rcases hm : mkdir with e | dir
  · simp [metricsRun]
  · rcases h with ⟨e, he⟩ | hw
    · rw [hm] at he; exact absurd he (by simp)
    · simp [metricsRun, writeFiles, hw f0]

/-- Witness for the fatal directory failure at a concrete failing
creation attempt. -/
theorem result_directory_failure_fatal_witness :
    (metricsRun (Except.error "EACCES") (fun _ => Except.ok ())
        ["GadgetCounts_Reduction.csv"]).persisted = [] ∧
      (metricsRun (Except.error "EACCES") (fun _ => Except.ok ())
        ["GadgetCounts_Reduction.csv"]).diagnostic.isSome :=
  result_directory_failure_fatal (Except.error "EACCES") (fun _ => Except.ok ())
    "GadgetCounts_Reduction.csv" [] "unused" (Or.inl ⟨"EACCES", rfl⟩)

/-- C1: at a zero denominator the reduction rate is undefined (NA) in the
stats layer, as the spec requires, but the driver renders every reduction
and introduction rate with the numeric percent formatter of GSA.py line
83, which cannot surface that NA: at the failing input the format call
raises instead of reporting an explicit NA field, a numeric zero stand in
would be rendered as the misleading zero percent string, and every numeric
rendering ends in the percent sign, so the literal NA is never emitted for
a rate. -/
theorem zero_denominator_rate_not_reportable :
    reductionRate ∅ {1} = none ∧
    rate_format_field (reductionRate ∅ {1}) =
      Except.error "TypeError: unsupported format string passed to NoneType" ∧
    rate_format 0 = "0.0%" ∧
    ∀ q : ℚ, (rate_format q).data.getLast? = some '%' := by
  refine ⟨by decide, rfl, ?_, ?_⟩
  · norm_num [rate_format, round_eq]
    rfl
  · intro q
    simp only [rate_format, String.data_append]
    exact List.getLast?_concat _

/-- C4 counterexample: for the gadget set whose families are all empty,
comparing the set to itself yields an NA reduction rate on its families,
not the zero percent rate the claim requires for every set. -/
theorem self_compare_empty_family_rate_na :
    ¬ ∀ S : GadgetSetM, ∀ f ∈ S.families, reductionRate f f = some 0 := by
  intro h
  have := h ⟨∅, ∅, ∅, ∅, ∅, ∅, ∅, ∅, ∅, ∅, ∅, ∅, ∅⟩ ∅ (by decide)
  exact absurd this (by decide)

/-- C4 amended: comparing a gadget set to itself yields a zero count diff
for every metric family; the reduction and introduction rates are zero
percent for every nonempty family and NA for an empty one; the changed
gadget set is empty, and the locality is NA rather than zero or one. -/
theorem self_compare_stats (S : GadgetSetM) (resolver : Option (ℕ → String)) :
    (∀ f ∈ S.families,
      countDiff f f = 0 ∧
        reductionRate f f = (if f = ∅ then none else some 0) ∧
        introductionRate f f = (if f = ∅ then none else some 0)) ∧
    changedSet S.allGadgets S.allGadgets = ∅ ∧
    gadgetLocality resolver S.allGadgets S.allGadgets = none := by
  refine ⟨fun f _ => ⟨by simp [countDiff], ?_, ?_⟩, ?_, ?_⟩
  · by_cases hf : f = ∅
    · simp [reductionRate, hf]
    · have hcard : f.card ≠ 0 := by simpa [Finset.card_eq_zero] using hf
      simp [reductionRate, hcard, hf, Finset.sdiff_self]
  · by_cases hf : f = ∅
    · simp [introductionRate, hf]
    · have hcard : f.card ≠ 0 := by simpa [Finset.card_eq_zero] using hf
      simp [introductionRate, hcard, hf, Finset.sdiff_self]
  · simp [changedSet]
  · cases resolver with
    | none => rfl
    | some r => simp [gadgetLocality, changedSet]

/-- Witness for the self comparison claim at a concrete nonempty family. -/
theorem self_compare_stats_witness :
    countDiff {1, 2} {1, 2} = 0 ∧ reductionRate {1, 2} {1, 2} = some 0 := by
  have h := (self_compare_stats ⟨{1, 2}, ∅, ∅, ∅, ∅, ∅, ∅, ∅, ∅, ∅, ∅, ∅, ∅⟩ none).1
    ({1, 2} : Finset ℕ) (by decide)
  refine ⟨h.1, ?_⟩
  rw [h.2.1]
  decide
